import Mathlib

/-!
Verification of the BharatViz Python client
(`src/server/examples/bharatviz.py`) against its specification.

The client is shallowly embedded: Python dicts become association lists
with Python-dict insertion semantics, pandas DataFrames become lists of
named columns, `requests.post` calls become `HttpPost` values recording
url, body and timeout, and every fallible step returns `Except PyError`.
`PyError.bharatViz` models the library's own `BharatVizError`;
`PyError.keyError` models a Python `KeyError` escaping from a bare
`result["key"]` subscript.
-/

/-- A Python scalar value occurring in the tabular data: a string (place
name) or a number.  Numbers are modelled as integers; none of the
verified properties depends on fractional values. -/
inductive PyVal where
  | str (s : String)
  | num (n : Int)
deriving DecidableEq, Repr

/-- A Python dict as an association list in key order. -/
abbrev PyDict := List (String × PyVal)

/-- Python dict insertion: overwriting an existing key keeps its
position, a fresh key is appended at the end. -/
def dictInsert : PyDict → String → PyVal → PyDict
  | [], k, v => [(k, v)]
  | (k₀, v₀) :: rest, k, v =>
    if k₀ = k then (k, v) :: rest else (k₀, v₀) :: dictInsert rest k v

/-- `dict(pairs)`: build a dict from a pair sequence, later duplicates
overwriting earlier ones (as in `dict(zip(columns, row))`). -/
def dictOfPairs (ps : List (String × PyVal)) : PyDict :=
  ps.foldl (fun d kv => dictInsert d kv.1 kv.2) []

/-- A pandas DataFrame, column-oriented: an ordered list of labelled
columns.  (A real DataFrame keeps all columns the same length; the
properties proved below do not need that invariant explicitly.) -/
structure DataFrame where
  cols : List (String × List PyVal)
deriving DecidableEq, Repr

/-- `df.columns` as a list of labels. -/
def dfNames (df : DataFrame) : List String :=
  df.cols.map Prod.fst

/-- Number of rows, read off the first column. -/
def dfNrows (df : DataFrame) : Nat :=
  match df.cols with
  | [] => 0
  | c :: _ => c.2.length

/-- `df[names]` label-based selection: for each requested label, ALL
columns bearing that label, in frame order — pandas returns every match
when labels are duplicated. -/
def selectCols (cols : List (String × List PyVal)) (names : List String) :
    List (String × List PyVal) :=
  names.flatMap (fun n => cols.filter (fun c => c.1 = n))

/-- `df.columns = required + list(df.columns[len(required):])`: relabel
the first `required.length` columns positionally, keep the rest. -/
def renameCols : List String → List (String × List PyVal) → List (String × List PyVal)
  | n :: ns, c :: cs => (n, c.2) :: renameCols ns cs
  | [], cs => cs
  | _ :: _, [] => []

/-- `df.to_dict("records")` on an already-selected column list: row `i`
becomes `dict(zip(labels, row_i))`, so with duplicated labels the later
column's value wins. -/
def recordsOf (sel : List (String × List PyVal)) (nrows : Nat) : List PyDict :=
  (List.range nrows).map
    (fun i => dictOfPairs (sel.map (fun c => (c.1, c.2.getD i (PyVal.str "")))))

/-- The row-oriented equivalent of a frame: one record per row, keys in
column order — what `df.to_dict("records")` yields on the whole frame. -/
def rowEquiv (df : DataFrame) : List PyDict :=
  recordsOf df.cols (dfNrows df)

/-- Errors a call can surface: the library's own `BharatVizError`
carrying a message, or a raw Python `KeyError` escaping a subscript. -/
inductive PyError where
  | bharatViz (msg : String)
  | keyError (key : String)
deriving DecidableEq, Repr

/-- Whether an error is the domain-specific `BharatVizError`. -/
def PyError.isBharatViz : PyError → Bool
  | .bharatViz _ => true
  | .keyError _ => false

/-- `BharatViz.COLOR_SCALES`, the 16-entry allow-list. -/
def COLOR_SCALES : List String :=
  ["spectral", "rdylbu", "rdylgn", "brbg", "piyg", "puor", "blues", "greens",
   "reds", "oranges", "purples", "pinks", "viridis", "plasma", "inferno", "magma"]

/-- `valid_map_types` from `generate_districts_map`. -/
def VALID_MAP_TYPES : List String :=
  ["LGD", "NFHS5", "NFHS4"]

/-- Python `", ".join(xs)`. -/
def joinComma : List String → String
  | [] => ""
  | [x] => x
  | x :: y :: ys => x ++ ", " ++ joinComma (y :: ys)

/-- A string wrapped in single quotes, as Python's `repr` prints it. -/
def quoted (s : String) : String :=
  "\x27" ++ s ++ "\x27"

/-- Python `str(list_of_strings)`, e.g. `[\x27a\x27, \x27b\x27]`. -/
def pyListRepr (xs : List String) : String :=
  "[" ++ joinComma (xs.map quoted) ++ "]"

/-- Message of the invalid-color-scale `BharatVizError`. -/
def invalidScaleMsg (color_scale : String) : String :=
  "Invalid color scale " ++ quoted color_scale ++ ". Choose from: " ++
    joinComma COLOR_SCALES

/-- Message of the invalid-map-type `BharatVizError`. -/
def invalidMapTypeMsg (map_type : String) : String :=
  "Invalid map_type " ++ quoted map_type ++ ". Choose from: " ++
    joinComma VALID_MAP_TYPES

/-- Message of the states-path malformed-DataFrame `BharatVizError`,
which names the columns actually present. -/
def dfStatesErrMsg (names : List String) : String :=
  "DataFrame must have " ++ quoted "state" ++ " and " ++ quoted "value" ++
    " columns. Got: " ++ pyListRepr names

/-- Message of the districts-path malformed-DataFrame `BharatVizError`. -/
def dfDistrictsErrMsg (names : List String) : String :=
  "DataFrame must have " ++ quoted "state" ++ ", " ++ quoted "district" ++
    " and " ++ quoted "value" ++ " columns. Got: " ++ pyListRepr names

/-- The DataFrame branch of `generate_map` (lines 171-184): if both
`state` and `value` are column labels, select them by name; otherwise,
with at least 2 columns, relabel the first two positionally and then
select by name; otherwise raise.  Either way `to_dict("records")`
produces the record list. -/
def dfNormalizeStates (df : DataFrame) : Except PyError (List PyDict) :=
  if "state" ∈ dfNames df ∧ "value" ∈ dfNames df then
    .ok (recordsOf (selectCols df.cols ["state", "value"]) (dfNrows df))
  else if 2 ≤ (dfNames df).length then
    .ok (recordsOf (selectCols (renameCols ["state", "value"] df.cols)
          ["state", "value"]) (dfNrows df))
  else
    .error (.bharatViz (dfStatesErrMsg (dfNames df)))

/-- The DataFrame branch of `generate_districts_map` (lines 351-364):
same shape with required columns `state`, `district`, `value`. -/
def dfNormalizeDistricts (df : DataFrame) : Except PyError (List PyDict) :=
  if "state" ∈ dfNames df ∧ "district" ∈ dfNames df ∧ "value" ∈ dfNames df then
    .ok (recordsOf (selectCols df.cols ["state", "district", "value"]) (dfNrows df))
  else if 3 ≤ (dfNames df).length then
    .ok (recordsOf (selectCols (renameCols ["state", "district", "value"] df.cols)
          ["state", "district", "value"]) (dfNrows df))
  else
    .error (.bharatViz (dfDistrictsErrMsg (dfNames df)))

/-- The `data` argument of a map-generation call: a row-oriented list of
dicts or a DataFrame. -/
inductive MapInput where
  | rows (recs : List PyDict)
  | frame (df : DataFrame)
deriving DecidableEq, Repr

/-- Input normalization of `generate_map`: a record list passes through
verbatim, a DataFrame goes through `dfNormalizeStates`. -/
def normalizeStates : MapInput → Except PyError (List PyDict)
  | .rows recs => .ok recs
  | .frame df => dfNormalizeStates df

/-- Input normalization of `generate_districts_map`. -/
def normalizeDistricts : MapInput → Except PyError (List PyDict)
  | .rows recs => .ok recs
  | .frame df => dfNormalizeDistricts df

/-- The JSON request body `generate_map` posts (lines 198-207). -/
structure StatesBody where
  data : List PyDict
  colorScale : String
  invertColors : Bool
  hideStateNames : Bool
  hideValues : Bool
  mainTitle : String
  legendTitle : String
  formats : List String
deriving DecidableEq, Repr

/-- The JSON request body `generate_districts_map` posts (lines 386-396). -/
structure DistrictsBody where
  data : List PyDict
  mapType : String
  colorScale : String
  invertColors : Bool
  hideValues : Bool
  showStateBoundaries : Bool
  mainTitle : String
  legendTitle : String
  formats : List String
deriving DecidableEq, Repr

/-- An outgoing `requests.post(url, json=body, timeout=...)` call. -/
structure HttpPost (β : Type) where
  url : String
  body : β
  timeout : Nat
deriving DecidableEq, Repr

/-- Python `s.rstrip("/")`: remove every trailing slash. -/
def rstripSlash (s : String) : String :=
  String.mk ((s.data.reverse.dropWhile (fun c => c = '/')).reverse)

/-- `self.states_endpoint` as set in `__init__`. -/
def states_endpoint (api_url : String) : String :=
  rstripSlash api_url ++ "/api/v1/states/map"

/-- `self.districts_endpoint` as set in `__init__`. -/
def districts_endpoint (api_url : String) : String :=
  rstripSlash api_url ++ "/api/v1/districts/map"

/-- The request-building phase of `generate_map` (lines 170-213): input
normalization, the empty-data check, the color-scale check, then the
outgoing POST to the states endpoint with timeout 30. -/
def generate_map_request (api_url : String) (data : MapInput)
    (title legend_title color_scale : String)
    (invert_colors hide_state_names hide_values : Bool)
    (formats : List String) : Except PyError (HttpPost StatesBody) :=
  match normalizeStates data with
  | .error e => .error e
  | .ok d =>
    if d = [] then
      .error (.bharatViz "Data cannot be empty")
    else if color_scale ∈ COLOR_SCALES then
      .ok ⟨states_endpoint api_url,
        ⟨d, color_scale, invert_colors, hide_state_names, hide_values,
         title, legend_title, formats⟩, 30⟩
    else
      .error (.bharatViz (invalidScaleMsg color_scale))

/-- The request-building phase of `generate_districts_map` (lines
350-404): normalization, empty check, color-scale check, map-type
check, then the POST to the districts endpoint with timeout 60. -/
def generate_districts_map_request (api_url : String) (data : MapInput)
    (map_type title legend_title color_scale : String)
    (invert_colors hide_values show_state_boundaries : Bool)
    (formats : List String) : Except PyError (HttpPost DistrictsBody) :=
  match normalizeDistricts data with
  | .error e => .error e
  | .ok d =>
    if d = [] then
      .error (.bharatViz "Data cannot be empty")
    else if color_scale ∈ COLOR_SCALES then
      if map_type ∈ VALID_MAP_TYPES then
        .ok ⟨districts_endpoint api_url,
          ⟨d, map_type, color_scale, invert_colors, hide_values,
           show_state_boundaries, title, legend_title, formats⟩, 60⟩
      else
        .error (.bharatViz (invalidMapTypeMsg map_type))
    else
      .error (.bharatViz (invalidScaleMsg color_scale))

/-- One entry of the response's `exports` list:
`{format: "png"|"svg"|"pdf", data: base64string}`. -/
structure ExportArtifact where
  format : String
  data : String
deriving DecidableEq, Repr

/-- The response's optional `error` object: `{message?: string}`. -/
structure ErrorObj where
  message : Option String
deriving DecidableEq, Repr

/-- A parsed JSON response body:
`{success: bool, exports?: [...], metadata?: object, error?: {message}}`.
The code only tests `success` for truthiness (`result.get("success")`),
so a missing field behaves like `false` and is modelled that way. -/
structure ApiResponse where
  success : Bool
  exports : Option (List ExportArtifact)
  metadata : Option PyDict
  error : Option ErrorObj
deriving DecidableEq, Repr

/-- `result.get("error", {}).get("message", "Unknown error")`. -/
def errorMessage (r : ApiResponse) : String :=
  match r.error with
  | none => "Unknown error"
  | some e => e.message.getD "Unknown error"

/-- `next((e for e in exports if e["format"] == "png"), None)`. -/
def findPng (exps : List ExportArtifact) : Option ExportArtifact :=
  exps.find? (fun e => e.format = "png")

/-- Value of one base64-alphabet character; `none` for characters
outside the alphabet (which `base64.b64decode` discards). -/
def b64val (c : Char) : Option Nat :=
  let n := c.toNat
  if 65 ≤ n ∧ n ≤ 90 then some (n - 65)
  else if 97 ≤ n ∧ n ≤ 122 then some (n - 97 + 26)
  else if 48 ≤ n ∧ n ≤ 57 then some (n - 48 + 52)
  else if n = 43 then some 62
  else if n = 47 then some 63
  else none

/-- Reassemble 6-bit groups into bytes: 4 sextets give 3 bytes, a final
group of 2 or 3 sextets (a padded tail) gives 1 or 2 bytes. -/
def sextetsToBytes : List Nat → List Nat
  | a :: b :: c :: d :: rest =>
    (a * 4 + b / 16) :: (b % 16 * 16 + c / 4) :: (c % 4 * 64 + d) ::
      sextetsToBytes rest
  | [a, b] => [a * 4 + b / 16]
  | [a, b, c] => [a * 4 + b / 16, b % 16 * 16 + c / 4]
  | _ => []

/-- `base64.b64decode` on well-padded input: characters outside the
alphabet (padding `=` included) are discarded, the sextets are packed
into bytes. -/
def b64decode (s : String) : List Nat :=
  sextetsToBytes (s.data.filterMap b64val)

/-- The response-handling phase shared verbatim by `generate_map`
(lines 224-241) and `generate_districts_map` (lines 415-432): reject a
falsy `success` with the server's message, subscript `result["exports"]`
(a bare subscript — a missing field escapes as `KeyError`), require a
`png` entry, require PIL, then base64-decode the PNG payload.
`Image.open` is modelled as the identity on the decoded bytes. -/
def decodePng (r : ApiResponse) (pil_available : Bool) : Except PyError (List Nat) :=
  if r.success = false then
    .error (.bharatViz ("API error: " ++ errorMessage r))
  else
    match r.exports with
    | none => .error (.keyError "exports")
    | some exps =>
      match findPng exps with
      | none => .error (.bharatViz "PNG export not found in response")
      | some png =>
        if pil_available = false then
          .error (.bharatViz
            "PIL is required to handle images. Install with: pip install pillow")
        else
          .ok (b64decode png.data)

/-- The full result returned when `return_all=True`:
`{"image": image, "exports": result["exports"], "metadata": result["metadata"]}`. -/
structure MapResult where
  image : List Nat
  exports : List ExportArtifact
  metadata : PyDict
deriving DecidableEq, Repr

/-- The `return_all=True` result of the shared response-handling phase:
after the PNG decode, `result["exports"]` and `result["metadata"]` are
read with bare subscripts, so a missing `metadata` field escapes as
`KeyError`. -/
def decodeAll (r : ApiResponse) (pil_available : Bool) : Except PyError MapResult :=
  match decodePng r pil_available, r.exports, r.metadata with
  | .error e, _, _ => .error e
  | .ok img, some exps, some md => .ok ⟨img, exps, md⟩
  | .ok _, none, _ => .error (.keyError "exports")
  | .ok _, some _, none => .error (.keyError "metadata")

/-- Outcome of the `requests.post` + `raise_for_status` + `.json()`
sequence, before the client's wrapping: success, a
`requests.RequestException` (network failure or non-2xx status raised
by `raise_for_status`), or a body that fails to parse as JSON. -/
inductive TransportOutcome where
  | ok (r : ApiResponse)
  | requestException (msg : String)
  | invalidJson
deriving DecidableEq, Repr

/-- The client's transport error wrapping (lines 210-222 and 398-413):
every transport failure is re-raised as a `BharatVizError`. -/
def handleTransport : TransportOutcome → Except PyError ApiResponse
  | .ok r => .ok r
  | .requestException m => .error (.bharatViz ("API request failed: " ++ m))
  | .invalidJson => .error (.bharatViz "Invalid JSON response from API")

/-- The request phase of `get_metadata` (lines 464-479):
`generate_map(data, formats=["svg"], return_all=True)` with all other
arguments at their defaults. -/
def get_metadata_request (api_url : String) (data : MapInput) :
    Except PyError (HttpPost StatesBody) :=
  generate_map_request api_url data "BharatViz" "Values" "spectral"
    false false false ["svg"]

/-- The response phase of `get_metadata`: the `return_all` result's
`metadata` field. -/
def get_metadata_decode (r : ApiResponse) (pil_available : Bool) :
    Except PyError PyDict :=
  match decodeAll r pil_available with
  | .ok res => .ok res.metadata
  | .error e => .error e

/-- The file-writing loop of `save_all_formats` (lines 523-531): for
each export, the pair of the written filename `{basename}.{format}` and
the base64-decoded bytes written to it. -/
def save_all_formats_files (basename : String) (exps : List ExportArtifact) :
    List (String × List Nat) :=
  exps.map (fun e => (basename ++ "." ++ e.format, b64decode e.data))

/-- `save_all_formats` from the response on: decode with
`return_all=True`, then write one file per export. -/
def save_all_formats_decode (basename : String) (r : ApiResponse)
    (pil_available : Bool) : Except PyError (List (String × List Nat)) :=
  match decodeAll r pil_available with
  | .ok res => .ok (save_all_formats_files basename res.exports)
  | .error e => .error e

/-- Whether every record of the list uses only keys from `keys`. -/
def onlyRecognizedKeys (data : List PyDict) (keys : List String) : Bool :=
  data.all (fun rec => rec.all (fun kv => kv.1 ∈ keys))

/-- Modelled from the spec: the record sequence the spec promises for a
columnar states input whose column names differ from the required ones —
the first two columns positionally reinterpreted as `state` and `value`.
Used only to compare the code's behaviour against the spec's words. -/
def positionalStatesRecords (df : DataFrame) : List PyDict :=
  recordsOf (renameCols ["state", "value"] (df.cols.take 2)) (dfNrows df)

/-- Modelled from the spec: the record sequence the spec promises for a
columnar districts input with differing column names — the first three
columns positionally reinterpreted as `state`, `district`, `value`. -/
def positionalDistrictsRecords (df : DataFrame) : List PyDict :=
  recordsOf (renameCols ["state", "district", "value"] (df.cols.take 3)) (dfNrows df)

/-! ### Helper lemmas -/

/-- The first character surviving `dropWhile (· = slash)` is not a slash. -/
theorem head_dropWhileSlash_ne (l : List Char) (c : Char)
    (h : (l.dropWhile (fun x => x = '/')).head? = some c) : c ≠ '/' := by
  induction l with
  | nil => simp at h
  | cons a t ih =>
    by_cases ha : a = '/'
    · rw [List.dropWhile_cons_of_pos (by simp [ha])] at h
      exact ih h
    · rw [List.dropWhile_cons_of_neg (by simp [ha])] at h
      simp at h
      subst h; exact ha

/-- Appending a trailing slash does not change `rstrip("/")`. -/
theorem rstripSlash_append_slash (u : String) :
    rstripSlash (u ++ "/") = rstripSlash u := by
  unfold rstripSlash
  rw [String.data_append]
  show String.mk (((u.data ++ ['/']).reverse.dropWhile (fun c => c = '/')).reverse) = _
  rw [List.reverse_append]
  rw [show (['/'] : List Char).reverse ++ u.data.reverse = '/' :: u.data.reverse by simp]
  rw [List.dropWhile_cons_of_pos (by decide)]

/-- `rstrip("/")` leaves no trailing slash. -/
theorem rstripSlash_no_trailing (u : String) :
    (rstripSlash u).data.getLast? ≠ some '/' := by
  intro h
  unfold rstripSlash at h
  rw [show (String.mk ((u.data.reverse.dropWhile (fun c => c = '/')).reverse)).data
      = (u.data.reverse.dropWhile (fun c => c = '/')).reverse from rfl] at h
  rw [List.getLast?_reverse] at h
  exact head_dropWhileSlash_ne _ _ h rfl

/-! ### Claim theorems -/

/-- C10: for every `api_url`, the constructed states endpoint is the
`api_url` with all trailing slashes removed followed by
`/api/v1/states/map`, the districts endpoint is the same prefix followed
by `/api/v1/districts/map`, the prefix never ends in a slash (so the
join point carries exactly the one slash of the path), and a trailing
slash on `api_url` yields the same endpoints as none. -/
theorem C10_endpoints (u : String) :
    states_endpoint u = rstripSlash u ++ "/api/v1/states/map" ∧
    districts_endpoint u = rstripSlash u ++ "/api/v1/districts/map" ∧
    (rstripSlash u).data.getLast? ≠ some '/' ∧
    states_endpoint (u ++ "/") = states_endpoint u ∧
    districts_endpoint (u ++ "/") = districts_endpoint u := by
  refine ⟨rfl, rfl, rstripSlash_no_trailing u, ?_, ?_⟩
  · unfold states_endpoint
    rw [rstripSlash_append_slash]
  · unfold districts_endpoint
    rw [rstripSlash_append_slash]

/-- C8: every states-endpoint request carries timeout 30 and every
districts-endpoint request timeout 60, so the districts timeout is
strictly longer. -/
theorem C8_timeouts (api t l cs mt : String) (ic hn hv sb : Bool)
    (fmts : List String) (input : MapInput) :
    (∀ post, generate_map_request api input t l cs ic hn hv fmts = .ok post →
      post.timeout = 30 ∧ post.url = states_endpoint api) ∧
    (∀ post, generate_districts_map_request api input mt t l cs ic hv sb fmts = .ok post →
      post.timeout = 60 ∧ post.url = districts_endpoint api) ∧
    (30 : Nat) < 60 := by
  refine ⟨?_, ?_, by norm_num⟩
  · intro post h
    unfold generate_map_request at h
    split at h
    · exact Except.noConfusion h
    · split_ifs at h <;>
        first
          | exact Except.noConfusion h
          | (injection h with h2; subst h2; exact ⟨rfl, rfl⟩)
  · intro post h
    unfold generate_districts_map_request at h
    split at h
    · exact Except.noConfusion h
    · split_ifs at h <;>
        first
          | exact Except.noConfusion h
          | (injection h with h2; subst h2; exact ⟨rfl, rfl⟩)

/-- C8 witness: a concrete one-record call produces timeout 30 (states)
and 60 (districts). -/
theorem C8_timeouts_witness :
    HttpPost.timeout (β := StatesBody)
      ⟨states_endpoint "http://x", ⟨[[("state", PyVal.str "A"), ("value", PyVal.num 1)]],
        "spectral", false, false, false, "T", "L", ["png"]⟩, 30⟩ = 30 ∧
    HttpPost.timeout (β := DistrictsBody)
      ⟨districts_endpoint "http://x",
        ⟨[[("state", PyVal.str "A"), ("district", PyVal.str "D"), ("value", PyVal.num 1)]],
         "LGD", "spectral", false, false, true, "T", "L", ["png"]⟩, 60⟩ = 60 := by
  constructor
  · exact ((C8_timeouts "http://x" "T" "L" "spectral" "LGD" false false false true ["png"]
      (.rows [[("state", PyVal.str "A"), ("value", PyVal.num 1)]])).1 _ rfl).1
  · exact ((C8_timeouts "http://x" "T" "L" "spectral" "LGD" false false false true ["png"]
      (.rows [[("state", PyVal.str "A"), ("district", PyVal.str "D"), ("value", PyVal.num 1)]])).2.1 _ rfl).1

/-- C4: for a success response whose exports hold a PNG entry with
payload `payload`, the decode step returns exactly the base64-decoded
bytes of that payload, and the `return_all` result carries the
response's `exports` list and `metadata` object unchanged. -/
theorem C4_roundtrip (exps : List ExportArtifact) (md : PyDict)
    (err : Option ErrorObj) (payload : String)
    (h : findPng exps = some ⟨"png", payload⟩) :
    decodePng ⟨true, some exps, some md, err⟩ true = .ok (b64decode payload) ∧
    decodeAll ⟨true, some exps, some md, err⟩ true =
      .ok ⟨b64decode payload, exps, md⟩ := by
  have h1 : decodePng ⟨true, some exps, some md, err⟩ true = .ok (b64decode payload) := by
    unfold decodePng
    simp [h]
  refine ⟨h1, ?_⟩
  unfold decodeAll
  rw [h1]

/-- C4 witness: a response whose single PNG export carries the payload
`AQID` decodes to the bytes 1, 2, 3. -/
theorem C4_roundtrip_witness :
    decodePng ⟨true, some [⟨"png", "AQID"⟩], some [], none⟩ true =
      .ok (b64decode "AQID") ∧
    b64decode "AQID" = [1, 2, 3] :=
  ⟨(C4_roundtrip [⟨"png", "AQID"⟩] [] none "AQID" (by decide)).1, by decide⟩

/-- C5: a success response whose exports contain no `png` entry makes
the decode step fail with the `BharatVizError` about the missing PNG —
the decode step never looks at the requested formats — and
`get_metadata`, whose request asks only for `svg`, fails on such a
response too. -/
theorem C5_missing_png (exps : List ExportArtifact) (md : Option PyDict)
    (err : Option ErrorObj) (pil : Bool)
    (h : ∀ e ∈ exps, e.format ≠ "png") :
    decodePng ⟨true, some exps, md, err⟩ pil =
      .error (.bharatViz "PNG export not found in response") ∧
    get_metadata_decode ⟨true, some exps, md, err⟩ pil =
      .error (.bharatViz "PNG export not found in response") ∧
    (∀ api input post, get_metadata_request api input = .ok post →
      post.body.formats = ["svg"]) := by
  have hf : findPng exps = none := by
    unfold findPng
    exact List.find?_eq_none.2 (by simpa using h)
  have h1 : decodePng ⟨true, some exps, md, err⟩ pil =
      .error (.bharatViz "PNG export not found in response") := by
    unfold decodePng
    simp [hf]
  have h2 : decodeAll ⟨true, some exps, md, err⟩ pil =
      .error (.bharatViz "PNG export not found in response") := by
    unfold decodeAll
    rw [h1]
  refine ⟨h1, ?_, ?_⟩
  · unfold get_metadata_decode
    rw [h2]
  · intro api input post hreq
    unfold get_metadata_request generate_map_request at hreq
    split at hreq
    · exact Except.noConfusion hreq
    · split_ifs at hreq <;>
        first
          | exact Except.noConfusion hreq
          | (injection hreq with h3; subst h3; rfl)

/-- C5 witness: a response carrying only an SVG export fails the decode
step and `get_metadata` with the missing-PNG error. -/
theorem C5_missing_png_witness :
    decodePng ⟨true, some [⟨"svg", "AA=="⟩], some [], none⟩ true =
      .error (.bharatViz "PNG export not found in response") ∧
    get_metadata_decode ⟨true, some [⟨"svg", "AA=="⟩], some [], none⟩ true =
      .error (.bharatViz "PNG export not found in response") := by
  have h := C5_missing_png [⟨"svg", "AA=="⟩] (some []) none true (by decide)
  exact ⟨h.1, h.2.1⟩

/-- C6: a parsed response with `success: false` and an error object
carrying a message makes the call fail with
`API error: <message>`, whose text contains the server-supplied message
verbatim (as a contiguous substring). -/
theorem C6_failure_propagation (exps : Option (List ExportArtifact))
    (md : Option PyDict) (msg : String) (pil : Bool) :
    decodePng ⟨false, exps, md, some ⟨some msg⟩⟩ pil =
      .error (.bharatViz ("API error: " ++ msg)) ∧
    msg.data <:+: ("API error: " ++ msg).data := by
  constructor
  · unfold decodePng
    simp [errorMessage]
  · rw [String.data_append]
    exact (List.suffix_append _ _).isInfix

/-- Any error raised by the states DataFrame branch is a `BharatVizError`. -/
theorem dfNormalizeStates_error_isBharatViz (df : DataFrame) (e : PyError)
    (h : dfNormalizeStates df = .error e) : e.isBharatViz = true := by
  unfold dfNormalizeStates at h
  split_ifs at h <;>
    first
      | exact Except.noConfusion h
      | (injection h with h2; subst h2; rfl)

/-- Any error raised by the districts DataFrame branch is a `BharatVizError`. -/
theorem dfNormalizeDistricts_error_isBharatViz (df : DataFrame) (e : PyError)
    (h : dfNormalizeDistricts df = .error e) : e.isBharatViz = true := by
  unfold dfNormalizeDistricts at h
  split_ifs at h <;>
    first
      | exact Except.noConfusion h
      | (injection h with h2; subst h2; rfl)

/-- Any error raised by states input normalization is a `BharatVizError`. -/
theorem normalizeStates_error_isBharatViz (input : MapInput) (e : PyError)
    (h : normalizeStates input = .error e) : e.isBharatViz = true := by
  cases input with
  | rows recs => exact Except.noConfusion h
  | frame df => exact dfNormalizeStates_error_isBharatViz df e h

/-- Any error raised by districts input normalization is a `BharatVizError`. -/
theorem normalizeDistricts_error_isBharatViz (input : MapInput) (e : PyError)
    (h : normalizeDistricts input = .error e) : e.isBharatViz = true := by
  cases input with
  | rows recs => exact Except.noConfusion h
  | frame df => exact dfNormalizeDistricts_error_isBharatViz df e h

/-- Any error raised while building a states request is a `BharatVizError`. -/
theorem generate_map_request_error_isBharatViz (api t l cs : String)
    (ic hn hv : Bool) (fmts : List String) (input : MapInput) (e : PyError)
    (h : generate_map_request api input t l cs ic hn hv fmts = .error e) :
    e.isBharatViz = true := by
  unfold generate_map_request at h
  split at h
  next e0 heq =>
    injection h with h2
    subst h2
    exact normalizeStates_error_isBharatViz input e0 heq
  next d heq =>
    split_ifs at h <;>
      first
        | exact Except.noConfusion h
        | (injection h with h2; subst h2; rfl)

/-- Any error raised while building a districts request is a `BharatVizError`. -/
theorem generate_districts_map_request_error_isBharatViz (api mt t l cs : String)
    (ic hv sb : Bool) (fmts : List String) (input : MapInput) (e : PyError)
    (h : generate_districts_map_request api input mt t l cs ic hv sb fmts = .error e) :
    e.isBharatViz = true := by
  unfold generate_districts_map_request at h
  split at h
  next e0 heq =>
    injection h with h2
    subst h2
    exact normalizeDistricts_error_isBharatViz input e0 heq
  next d heq =>
    split_ifs at h <;>
      first
        | exact Except.noConfusion h
        | (injection h with h2; subst h2; rfl)

/-- Any error of the PNG decode phase is a `BharatVizError` or the
`KeyError` of a missing `exports` field. -/
theorem decodePng_error_kinds (r : ApiResponse) (pil : Bool) (e : PyError)
    (h : decodePng r pil = .error e) :
    e.isBharatViz = true ∨ e = .keyError "exports" := by
  unfold decodePng at h
  split at h
  · injection h with h2; subst h2; left; rfl
  · split at h
    · injection h with h2; subst h2; right; rfl
    · split at h
      · injection h with h2; subst h2; left; rfl
      · split at h
        · injection h with h2; subst h2; left; rfl
        · exact Except.noConfusion h

/-- Any error of the `return_all` decode phase is a `BharatVizError` or
the `KeyError` of a missing `exports` or `metadata` field. -/
theorem decodeAll_error_kinds (r : ApiResponse) (pil : Bool) (e : PyError)
    (h : decodeAll r pil = .error e) :
    e.isBharatViz = true ∨ e = .keyError "exports" ∨ e = .keyError "metadata" := by
  unfold decodeAll at h
  split at h
  next e0 heq =>
    injection h with h2
    subst h2
    rcases decodePng_error_kinds r pil e0 heq with h3 | h3
    · exact Or.inl h3
    · exact Or.inr (Or.inl h3)
  · exact Except.noConfusion h
  · injection h with h2; subst h2; right; left; rfl
  · injection h with h2; subst h2; right; right; rfl

/-- C9: a successful call returning png, svg and pdf exports makes
`save_all_formats` with basename `out` write exactly `out.png`,
`out.svg`, `out.pdf`, each holding the base64-decoded bytes of the
corresponding export, with matching byte lengths. -/
theorem C9_save_all_formats (p s q : String) (md : PyDict) (err : Option ErrorObj) :
    save_all_formats_decode "out"
        ⟨true, some [⟨"png", p⟩, ⟨"svg", s⟩, ⟨"pdf", q⟩], some md, err⟩ true =
      .ok [("out.png", b64decode p), ("out.svg", b64decode s),
           ("out.pdf", b64decode q)] ∧
    ([("out.png", b64decode p), ("out.svg", b64decode s),
      ("out.pdf", b64decode q)].map (fun f => f.2.length)) =
      [(b64decode p).length, (b64decode s).length, (b64decode q).length] := by
  constructor
  · rfl
  · rfl

/-- C7 counterexample: a success-true response lacking the `exports`
field makes the decode phase fail with a raw `KeyError`, which is not
the domain-specific `BharatVizError`. -/
theorem C7_keyerror_counterexample :
    decodePng ⟨true, none, none, none⟩ true = .error (.keyError "exports") ∧
    PyError.isBharatViz (.keyError "exports") = false := ⟨rfl, rfl⟩

/-- C7 amended: every failure of request building, transport wrapping or
response decoding surfaces as the domain `BharatVizError` — except that
a success-true response lacking the `exports` field (or lacking
`metadata` when the full result is requested) escapes as a raw Python
`KeyError` instead. -/
theorem C7_amended (api t l cs mt : String) (ic hn hv sb pil : Bool)
    (fmts : List String) (input : MapInput) (tr : TransportOutcome)
    (r : ApiResponse) :
    (∀ e, generate_map_request api input t l cs ic hn hv fmts = .error e →
      e.isBharatViz = true) ∧
    (∀ e, generate_districts_map_request api input mt t l cs ic hv sb fmts = .error e →
      e.isBharatViz = true) ∧
    (∀ e, handleTransport tr = .error e → e.isBharatViz = true) ∧
    (∀ e, decodePng r pil = .error e →
      e.isBharatViz = true ∨ e = .keyError "exports") ∧
    (∀ e, decodeAll r pil = .error e →
      e.isBharatViz = true ∨ e = .keyError "exports" ∨ e = .keyError "metadata") := by
  refine ⟨?_, ?_, ?_, ?_, ?_⟩
  · intro e h
    exact generate_map_request_error_isBharatViz api t l cs ic hn hv fmts input e h
  · intro e h
    exact generate_districts_map_request_error_isBharatViz api mt t l cs ic hv sb fmts input e h
  · intro e h
    cases tr with
    | ok rr => exact Except.noConfusion h
    | requestException m => injection h with h2; subst h2; rfl
    | invalidJson => injection h with h2; subst h2; rfl
  · intro e h
    exact decodePng_error_kinds r pil e h
  · intro e h
    exact decodeAll_error_kinds r pil e h

/-- C7 witness: applying the amended theorem at a concrete
exports-less response yields the `KeyError` disjunct. -/
theorem C7_amended_witness :
    PyError.isBharatViz (.keyError "exports") = true ∨
    PyError.keyError "exports" = .keyError "exports" :=
  (C7_amended "http://x" "T" "L" "spectral" "LGD" false false false true true
    ["png"] (.rows []) (.ok ⟨true, none, none, none⟩)
    ⟨true, none, none, none⟩).2.2.2.1 (.keyError "exports") rfl

/-- C3: both map calls reject with a `BharatVizError` before any request
value is produced whenever the normalized record sequence is empty, the
color scale is outside the 16-entry allow-list, or — districts only —
the map type is not LGD/NFHS5/NFHS4.  Each conjunct yields an `.error`,
so no `HttpPost` (the embedded outgoing request) exists in these cases. -/
theorem C3_validation (api t l cs mt : String) (ic hn hv sb : Bool)
    (fmts : List String) (input : MapInput) :
    (normalizeStates input = .ok [] →
      generate_map_request api input t l cs ic hn hv fmts =
        .error (.bharatViz "Data cannot be empty")) ∧
    (∀ d, normalizeStates input = .ok d → d ≠ [] → cs ∉ COLOR_SCALES →
      generate_map_request api input t l cs ic hn hv fmts =
        .error (.bharatViz (invalidScaleMsg cs))) ∧
    (normalizeDistricts input = .ok [] →
      generate_districts_map_request api input mt t l cs ic hv sb fmts =
        .error (.bharatViz "Data cannot be empty")) ∧
    (∀ d, normalizeDistricts input = .ok d → d ≠ [] → cs ∉ COLOR_SCALES →
      generate_districts_map_request api input mt t l cs ic hv sb fmts =
        .error (.bharatViz (invalidScaleMsg cs))) ∧
    (∀ d, normalizeDistricts input = .ok d → d ≠ [] → cs ∈ COLOR_SCALES →
      mt ∉ VALID_MAP_TYPES →
      generate_districts_map_request api input mt t l cs ic hv sb fmts =
        .error (.bharatViz (invalidMapTypeMsg mt))) := by
  refine ⟨?_, ?_, ?_, ?_, ?_⟩
  · intro hnorm
    unfold generate_map_request
    rw [hnorm]
    rfl
  · intro d hnorm hne hcs
    unfold generate_map_request
    rw [hnorm]
    show (if d = [] then _ else if cs ∈ COLOR_SCALES then _ else _) = _
    rw [if_neg hne, if_neg hcs]
  · intro hnorm
    unfold generate_districts_map_request
    rw [hnorm]
    rfl
  · intro d hnorm hne hcs
    unfold generate_districts_map_request
    rw [hnorm]
    show (if d = [] then _ else if cs ∈ COLOR_SCALES then _ else _) = _
    rw [if_neg hne, if_neg hcs]
  · intro d hnorm hne hcs hmt
    unfold generate_districts_map_request
    rw [hnorm]
    show (if d = [] then _
          else if cs ∈ COLOR_SCALES then if mt ∈ VALID_MAP_TYPES then _ else _
          else _) = _
    rw [if_neg hne, if_pos hcs, if_neg hmt]

/-- C3 witness: concrete rejected calls — empty data, a color scale
outside the allow-list, and an unknown district map type. -/
theorem C3_validation_witness :
    generate_map_request "http://x" (.rows []) "T" "L" "spectral"
      false false false ["png"] =
      .error (.bharatViz "Data cannot be empty") ∧
    generate_map_request "http://x"
      (.rows [[("state", PyVal.str "A"), ("value", PyVal.num 1)]])
      "T" "L" "sepia" false false false ["png"] =
      .error (.bharatViz (invalidScaleMsg "sepia")) ∧
    generate_districts_map_request "http://x" (.rows []) "LGD" "T" "L"
      "spectral" false false true ["png"] =
      .error (.bharatViz "Data cannot be empty") ∧
    generate_districts_map_request "http://x"
      (.rows [[("state", PyVal.str "A"), ("district", PyVal.str "D"), ("value", PyVal.num 1)]])
      "LGD" "T" "L" "sepia" false false true ["png"] =
      .error (.bharatViz (invalidScaleMsg "sepia")) ∧
    generate_districts_map_request "http://x"
      (.rows [[("state", PyVal.str "A"), ("district", PyVal.str "D"), ("value", PyVal.num 1)]])
      "XYZ" "T" "L" "spectral" false false true ["png"] =
      .error (.bharatViz (invalidMapTypeMsg "XYZ")) := by
  refine ⟨?_, ?_, ?_, ?_, ?_⟩
  · exact (C3_validation "http://x" "T" "L" "spectral" "LGD" false false false true
      ["png"] (.rows [])).1 rfl
  · exact (C3_validation "http://x" "T" "L" "sepia" "LGD" false false false true
      ["png"] (.rows [[("state", PyVal.str "A"), ("value", PyVal.num 1)]])).2.1
      _ rfl (by decide) (by decide)
  · exact (C3_validation "http://x" "T" "L" "spectral" "LGD" false false false true
      ["png"] (.rows [])).2.2.1 rfl
  · exact (C3_validation "http://x" "T" "L" "sepia" "LGD" false false false true
      ["png"] (.rows [[("state", PyVal.str "A"), ("district", PyVal.str "D"),
        ("value", PyVal.num 1)]])).2.2.2.1 _ rfl (by decide) (by decide)
  · exact (C3_validation "http://x" "T" "L" "spectral" "XYZ" false false false true
      ["png"] (.rows [[("state", PyVal.str "A"), ("district", PyVal.str "D"),
        ("value", PyVal.num 1)]])).2.2.2.2 _ rfl (by decide) (by decide) (by decide)

/-- C1 counterexample: the row-oriented path forwards records verbatim,
so an input record with the extra key `extra` produces a request body
whose record still carries a key other than `state` and `value`,
refuting "records contain only the recognized keys". -/
theorem C1_extra_key_counterexample :
    generate_map_request "http://x"
      (.rows [[("state", PyVal.str "A"), ("value", PyVal.num 1), ("extra", PyVal.num 2)]])
      "T" "L" "spectral" false false false ["png"] =
      .ok ⟨states_endpoint "http://x",
        ⟨[[("state", PyVal.str "A"), ("value", PyVal.num 1), ("extra", PyVal.num 2)]],
         "spectral", false, false, false, "T", "L", ["png"]⟩, 30⟩ ∧
    onlyRecognizedKeys
      [[("state", PyVal.str "A"), ("value", PyVal.num 1), ("extra", PyVal.num 2)]]
      ["state", "value"] = false :=
  ⟨rfl, by decide⟩

/-- C1 amended: for every non-empty row-oriented input and allow-listed
color scale, the request body's `data` field is the input list verbatim;
hence its length equals the input length, and its records contain only
the recognized keys exactly when the input's records do. -/
theorem C1_data_passthrough (api t l cs : String) (ic hn hv : Bool)
    (fmts : List String) (recs : List PyDict)
    (hne : recs ≠ []) (hcs : cs ∈ COLOR_SCALES) :
    generate_map_request api (.rows recs) t l cs ic hn hv fmts =
      .ok ⟨states_endpoint api, ⟨recs, cs, ic, hn, hv, t, l, fmts⟩, 30⟩ ∧
    (StatesBody.data ⟨recs, cs, ic, hn, hv, t, l, fmts⟩).length = recs.length ∧
    (onlyRecognizedKeys recs ["state", "value"] = true →
      onlyRecognizedKeys (StatesBody.data ⟨recs, cs, ic, hn, hv, t, l, fmts⟩)
        ["state", "value"] = true) := by
  refine ⟨?_, rfl, fun h => h⟩
  unfold generate_map_request
  show (if recs = [] then _ else if cs ∈ COLOR_SCALES then _ else _) = _
  rw [if_neg hne, if_pos hcs]

/-- C1 witness: a concrete two-record input passes through verbatim. -/
theorem C1_data_passthrough_witness :
    generate_map_request "http://x"
      (.rows [[("state", PyVal.str "A"), ("value", PyVal.num 1)],
              [("state", PyVal.str "B"), ("value", PyVal.num 2)]])
      "T" "L" "viridis" false false false ["png"] =
      .ok ⟨states_endpoint "http://x",
        ⟨[[("state", PyVal.str "A"), ("value", PyVal.num 1)],
          [("state", PyVal.str "B"), ("value", PyVal.num 2)]],
         "viridis", false, false, false, "T", "L", ["png"]⟩, 30⟩ :=
  (C1_data_passthrough "http://x" "T" "L" "viridis" false false false ["png"]
    [[("state", PyVal.str "A"), ("value", PyVal.num 1)],
     [("state", PyVal.str "B"), ("value", PyVal.num 2)]]
    (by decide) (by decide)).1

/-- A label filter over columns none of which bears the label is empty. -/
theorem filter_label_nil (cols : List (String × List PyVal)) (n : String)
    (h : n ∉ cols.map Prod.fst) :
    cols.filter (fun c => c.1 = n) = [] := by
  induction cols with
  | nil => rfl
  | cons c cs ih =>
    simp only [List.map_cons, List.mem_cons] at h
    push_neg at h
    rw [List.filter_cons_of_neg (by simpa using h.1.symm)]
    exact ih h.2

/-- Selecting `state`,`value` from a frame headed by exactly those two
labels, when no later column reuses them, picks the two head columns. -/
theorem selectCols_states (v0 v1 : List PyVal) (rest : List (String × List PyVal))
    (h0 : "state" ∉ rest.map Prod.fst) (h1 : "value" ∉ rest.map Prod.fst) :
    selectCols (("state", v0) :: ("value", v1) :: rest) ["state", "value"] =
      [("state", v0), ("value", v1)] := by
  unfold selectCols
  simp [List.filter_cons, filter_label_nil rest "state" h0,
    filter_label_nil rest "value" h1]

/-- Districts analogue of the previous lemma, with three labels. -/
theorem selectCols_districts (v0 v1 v2 : List PyVal)
    (rest : List (String × List PyVal))
    (h0 : "state" ∉ rest.map Prod.fst) (h1 : "district" ∉ rest.map Prod.fst)
    (h2 : "value" ∉ rest.map Prod.fst) :
    selectCols (("state", v0) :: ("district", v1) :: ("value", v2) :: rest)
      ["state", "district", "value"] =
      [("state", v0), ("district", v1), ("value", v2)] := by
  unfold selectCols
  simp [List.filter_cons, filter_label_nil rest "state" h0,
    filter_label_nil rest "district" h1, filter_label_nil rest "value" h2]

/-- An infix of the right part is an infix of an append. -/
theorem infix_append_right_of (x l₁ l₂ : List Char) (h : x <:+: l₂) :
    x <:+: l₁ ++ l₂ := by
  obtain ⟨s, t, rfl⟩ := h
  exact ⟨l₁ ++ s, t, by simp⟩

/-- An infix of the left part is an infix of an append. -/
theorem infix_append_left_of (x l₁ l₂ : List Char) (h : x <:+: l₁) :
    x <:+: l₁ ++ l₂ := by
  obtain ⟨s, t, rfl⟩ := h
  exact ⟨s, t ++ l₂, by simp⟩

/-- Every member of a list is a substring of its comma join. -/
theorem joinComma_substr_of_mem (xs : List String) (x : String) (h : x ∈ xs) :
    x.data <:+: (joinComma xs).data := by
  induction xs with
  | nil => cases h
  | cons a ys ih =>
    cases ys with
    | nil =>
      rw [List.mem_singleton] at h
      subst h
      exact List.infix_rfl
    | cons b bs =>
      rw [List.mem_cons] at h
      rcases h with rfl | h
      · show x.data <:+: (x ++ ", " ++ joinComma (b :: bs)).data
        rw [String.data_append]
        refine infix_append_left_of _ _ _ ?_
        rw [String.data_append]
        exact infix_append_left_of _ _ _ List.infix_rfl
      · show x.data <:+: (a ++ ", " ++ joinComma (b :: bs)).data
        rw [String.data_append]
        exact infix_append_right_of _ _ _ (ih h)

/-- Every member of a list is a substring of its Python list repr. -/
theorem pyListRepr_substr_of_mem (xs : List String) (x : String) (h : x ∈ xs) :
    x.data <:+: (pyListRepr xs).data := by
  have h1 : x.data <:+: (quoted x).data :=
    ⟨"\x27".data, "\x27".data, by rw [show quoted x = "\x27" ++ x ++ "\x27" from rfl,
      String.data_append, String.data_append]⟩
  have h2 : (quoted x).data <:+: (joinComma (xs.map quoted)).data :=
    joinComma_substr_of_mem _ _ (List.mem_map_of_mem quoted h)
  have h3 : x.data <:+: (joinComma (xs.map quoted)).data := h1.trans h2
  unfold pyListRepr
  rw [String.data_append, String.data_append]
  exact infix_append_left_of _ _ _ (infix_append_right_of _ _ _ h3)

/-- Two distinct strings both occurring in a list force length at least two. -/
theorem two_mem_length (names : List String)
    (h1 : "state" ∈ names) (h2 : "value" ∈ names) : 2 ≤ names.length := by
  have hsub : ({"state", "value"} : Finset String) ⊆ names.toFinset := by
    intro x hx
    simp only [Finset.mem_insert, Finset.mem_singleton] at hx
    rcases hx with rfl | rfl
    · simpa using h1
    · simpa using h2
  calc 2 = ({"state", "value"} : Finset String).card := by decide
    _ ≤ names.toFinset.card := Finset.card_le_card hsub
    _ ≤ names.length := names.toFinset_card_le

/-- Three distinct strings both occurring in a list force length at
least three. -/
theorem three_mem_length (names : List String)
    (h1 : "state" ∈ names) (h2 : "district" ∈ names) (h3 : "value" ∈ names) :
    3 ≤ names.length := by
  have hsub : ({"state", "district", "value"} : Finset String) ⊆ names.toFinset := by
    intro x hx
    simp only [Finset.mem_insert, Finset.mem_singleton] at hx
    rcases hx with rfl | rfl | rfl
    · simpa using h1
    · simpa using h2
    · simpa using h3
  calc 3 = ({"state", "district", "value"} : Finset String).card := by decide
    _ ≤ names.toFinset.card := Finset.card_le_card hsub
    _ ≤ names.length := names.toFinset_card_le

/-- C2 counterexample: with columns `a`, `b`, `value`, the positional
rename labels them `state`, `value`, `value`; name-based selection then
returns both `value` columns and the later one wins in the record dict,
so the produced record takes `value` from the third column, not the
second as the claim's positional reinterpretation requires. -/
theorem C2_duplicate_label_counterexample :
    dfNormalizeStates
        ⟨[("a", [PyVal.str "X"]), ("b", [PyVal.num 1]), ("value", [PyVal.num 2])]⟩ =
      .ok [[("state", PyVal.str "X"), ("value", PyVal.num 2)]] ∧
    positionalStatesRecords
        ⟨[("a", [PyVal.str "X"]), ("b", [PyVal.num 1]), ("value", [PyVal.num 2])]⟩ =
      [[("state", PyVal.str "X"), ("value", PyVal.num 1)]] ∧
    ([[("state", PyVal.str "X"), ("value", PyVal.num 2)]] : List PyDict) ≠
      [[("state", PyVal.str "X"), ("value", PyVal.num 1)]] :=
  ⟨rfl, rfl, by decide⟩

/-- C2 amended: for a columnar input whose columns are exactly
`state`/`value` (or `state`/`district`/`value` for districts) the
produced record sequence is the row-oriented equivalent of the data and
the whole request build agrees with the row-oriented call; if the names
differ but at least N columns exist, the first N columns are positionally
reinterpreted as the required names and the build succeeds, provided no
later column itself bears one of the required names (such a later column
would override the positional one in the produced records); if fewer
than N columns exist, the build fails with a `BharatVizError` whose
message names every column actually present. -/
theorem C2_dataframe_normalization (api t l cs : String) (ic hn hv : Bool)
    (fmts : List String) (df : DataFrame) :
    (∀ v0 v1, df.cols = [("state", v0), ("value", v1)] →
      dfNormalizeStates df = .ok (rowEquiv df) ∧
      generate_map_request api (.frame df) t l cs ic hn hv fmts =
        generate_map_request api (.rows (rowEquiv df)) t l cs ic hn hv fmts) ∧
    (∀ c0 c1 rest, df.cols = c0 :: c1 :: rest →
      ¬("state" ∈ dfNames df ∧ "value" ∈ dfNames df) →
      "state" ∉ rest.map Prod.fst → "value" ∉ rest.map Prod.fst →
      dfNormalizeStates df = .ok (positionalStatesRecords df)) ∧
    ((dfNames df).length < 2 →
      dfNormalizeStates df = .error (.bharatViz (dfStatesErrMsg (dfNames df))) ∧
      ∀ c ∈ dfNames df, c.data <:+: (dfStatesErrMsg (dfNames df)).data) ∧
    (∀ v0 v1 v2, df.cols = [("state", v0), ("district", v1), ("value", v2)] →
      dfNormalizeDistricts df = .ok (rowEquiv df) ∧
      ∀ mt sb, generate_districts_map_request api (.frame df) mt t l cs ic hv sb fmts =
        generate_districts_map_request api (.rows (rowEquiv df)) mt t l cs ic hv sb fmts) ∧
    (∀ c0 c1 c2 rest, df.cols = c0 :: c1 :: c2 :: rest →
      ¬("state" ∈ dfNames df ∧ "district" ∈ dfNames df ∧ "value" ∈ dfNames df) →
      "state" ∉ rest.map Prod.fst → "district" ∉ rest.map Prod.fst →
      "value" ∉ rest.map Prod.fst →
      dfNormalizeDistricts df = .ok (positionalDistrictsRecords df)) ∧
    ((dfNames df).length < 3 →
      dfNormalizeDistricts df = .error (.bharatViz (dfDistrictsErrMsg (dfNames df))) ∧
      ∀ c ∈ dfNames df, c.data <:+: (dfDistrictsErrMsg (dfNames df)).data) := by
  obtain ⟨cols⟩ := df
  refine ⟨?_, ?_, ?_, ?_, ?_, ?_⟩
  · intro v0 v1 hc
    subst hc
    have hok : dfNormalizeStates ⟨[("state", v0), ("value", v1)]⟩ =
        .ok (rowEquiv ⟨[("state", v0), ("value", v1)]⟩) := by
      unfold dfNormalizeStates
      rw [if_pos (by simp [dfNames])]
      rw [selectCols_states v0 v1 [] (by simp) (by simp)]
      rfl
    refine ⟨hok, ?_⟩
    unfold generate_map_request
    rw [show normalizeStates (.frame ⟨[("state", v0), ("value", v1)]⟩) =
        .ok (rowEquiv ⟨[("state", v0), ("value", v1)]⟩) from hok]
    rfl
  · intro c0 c1 rest hc hni h0 h1
    subst hc
    have hlen : 2 ≤ (dfNames ⟨c0 :: c1 :: rest⟩).length := by
      simp [dfNames]
    unfold dfNormalizeStates
    rw [if_neg hni, if_pos hlen]
    rw [show renameCols ["state", "value"] (c0 :: c1 :: rest) =
        ("state", c0.2) :: ("value", c1.2) :: rest from rfl]
    rw [selectCols_states c0.2 c1.2 rest h0 h1]
    rfl
  · intro hlen
    have hni : ¬("state" ∈ dfNames ⟨cols⟩ ∧ "value" ∈ dfNames ⟨cols⟩) := by
      rintro ⟨ha, hb⟩
      exact absurd (two_mem_length _ ha hb) (by omega)
    have herr : dfNormalizeStates ⟨cols⟩ =
        .error (.bharatViz (dfStatesErrMsg (dfNames ⟨cols⟩))) := by
      unfold dfNormalizeStates
      rw [if_neg hni, if_neg (by omega)]
    refine ⟨herr, ?_⟩
    intro c hc
    unfold dfStatesErrMsg
    rw [String.data_append]
    exact infix_append_right_of _ _ _ (pyListRepr_substr_of_mem _ _ hc)
  · intro v0 v1 v2 hc
    subst hc
    have hok : dfNormalizeDistricts ⟨[("state", v0), ("district", v1), ("value", v2)]⟩ =
        .ok (rowEquiv ⟨[("state", v0), ("district", v1), ("value", v2)]⟩) := by
      unfold dfNormalizeDistricts
      rw [if_pos (by simp [dfNames])]
      rw [selectCols_districts v0 v1 v2 [] (by simp) (by simp) (by simp)]
      rfl
    refine ⟨hok, ?_⟩
    intro mt sb
    unfold generate_districts_map_request
    rw [show normalizeDistricts (.frame ⟨[("state", v0), ("district", v1), ("value", v2)]⟩) =
        .ok (rowEquiv ⟨[("state", v0), ("district", v1), ("value", v2)]⟩) from hok]
    rfl
  · intro c0 c1 c2 rest hc hni h0 h1 h2
    subst hc
    have hlen : 3 ≤ (dfNames ⟨c0 :: c1 :: c2 :: rest⟩).length := by
      simp [dfNames]
    unfold dfNormalizeDistricts
    rw [if_neg hni, if_pos hlen]
    rw [show renameCols ["state", "district", "value"] (c0 :: c1 :: c2 :: rest) =
        ("state", c0.2) :: ("district", c1.2) :: ("value", c2.2) :: rest from rfl]
    rw [selectCols_districts c0.2 c1.2 c2.2 rest h0 h1 h2]
    rfl
  · intro hlen
    have hni : ¬("state" ∈ dfNames ⟨cols⟩ ∧ "district" ∈ dfNames ⟨cols⟩ ∧
        "value" ∈ dfNames ⟨cols⟩) := by
      rintro ⟨ha, hb, hc⟩
      exact absurd (three_mem_length _ ha hb hc) (by omega)
    have herr : dfNormalizeDistricts ⟨cols⟩ =
        .error (.bharatViz (dfDistrictsErrMsg (dfNames ⟨cols⟩))) := by
      unfold dfNormalizeDistricts
      rw [if_neg hni, if_neg (by omega)]
    refine ⟨herr, ?_⟩
    intro c hc
    unfold dfDistrictsErrMsg
    rw [String.data_append]
    exact infix_append_right_of _ _ _ (pyListRepr_substr_of_mem _ _ hc)

/-- C2 witness: concrete frames exercising every arm — exactly-named
columns, renamed columns, and too few columns, for states and districts. -/
theorem C2_dataframe_normalization_witness :
    dfNormalizeStates ⟨[("state", [PyVal.str "X"]), ("value", [PyVal.num 1])]⟩ =
      .ok [[("state", PyVal.str "X"), ("value", PyVal.num 1)]] ∧
    dfNormalizeStates ⟨[("a", [PyVal.str "X"]), ("b", [PyVal.num 1])]⟩ =
      .ok [[("state", PyVal.str "X"), ("value", PyVal.num 1)]] ∧
    dfNormalizeStates ⟨[("a", [PyVal.str "X"])]⟩ =
      .error (.bharatViz (dfStatesErrMsg ["a"])) ∧
    dfNormalizeDistricts
        ⟨[("state", [PyVal.str "X"]), ("district", [PyVal.str "D"]),
          ("value", [PyVal.num 1])]⟩ =
      .ok [[("state", PyVal.str "X"), ("district", PyVal.str "D"),
            ("value", PyVal.num 1)]] ∧
    dfNormalizeDistricts ⟨[("a", [PyVal.str "X"]), ("b", [PyVal.str "D"])]⟩ =
      .error (.bharatViz (dfDistrictsErrMsg ["a", "b"])) := by
  refine ⟨?_, ?_, ?_, ?_, ?_⟩
  · exact ((C2_dataframe_normalization "u" "T" "L" "spectral" false false false
      ["png"] ⟨[("state", [PyVal.str "X"]), ("value", [PyVal.num 1])]⟩).1
      [PyVal.str "X"] [PyVal.num 1] rfl).1
  · exact (C2_dataframe_normalization "u" "T" "L" "spectral" false false false
      ["png"] ⟨[("a", [PyVal.str "X"]), ("b", [PyVal.num 1])]⟩).2.1
      ("a", [PyVal.str "X"]) ("b", [PyVal.num 1]) [] rfl (by decide) (by decide)
      (by decide)
  · exact ((C2_dataframe_normalization "u" "T" "L" "spectral" false false false
      ["png"] ⟨[("a", [PyVal.str "X"])]⟩).2.2.1 (by decide)).1
  · exact ((C2_dataframe_normalization "u" "T" "L" "spectral" false false false
      ["png"] ⟨[("state", [PyVal.str "X"]), ("district", [PyVal.str "D"]),
        ("value", [PyVal.num 1])]⟩).2.2.2.1
      [PyVal.str "X"] [PyVal.str "D"] [PyVal.num 1] rfl).1
  · exact ((C2_dataframe_normalization "u" "T" "L" "spectral" false false false
      ["png"] ⟨[("a", [PyVal.str "X"]), ("b", [PyVal.str "D"])]⟩).2.2.2.2.2
      (by decide)).1
